import Mathlib

/-!
Verification of the configuration-synchronizer / process-supervisor component
in `src/shadowbox/server/outline_shadowsocks_server.ts` (class
`OutlineShadowsocksServer`).  Pure functions of the source are embedded as
Lean functions; the mutable instance state and the subprocess lifecycle are
embedded as explicit state passing plus a step function over discrete events.
-/

namespace OutlineSS

/-- Embedding of the JavaScript string primitive `toLowerCase()` used at
`isAeadCipher` (ASCII case folding on the character sequence). -/
def strToLower (s : String) : String := ⟨s.data.map Char.toLower⟩

/-- Embedding of the JavaScript string primitive `endsWith()` used at
`isAeadCipher`. -/
def strEndsWith (s suffixStr : String) : Bool :=
  List.isSuffixOf suffixStr.data s.data

/-- An access key record, from `ShadowsocksAccessKey` (id, secret, cipher;
extra transport parameters are not observed by this component). -/
structure ShadowsocksAccessKey where
  id : String
  secret : String
  cipher : String
deriving Repr, DecidableEq

/-- Function `isAeadCipher` from the source: lower-case the alias, accept iff it ends
with `"gcm"` or with `"poly1305"`. -/
def isAeadCipher (cipherAlias : String) : Bool :=
  let c := strToLower cipherAlias
  strEndsWith c "gcm" || strEndsWith c "poly1305"

/-- The filtering loop of `writeConfigFile`: walk the input keys in order,
skip (with a logged error) any key whose cipher is not AEAD, push the rest
onto `keysJson.keys`. -/
def buildKeysJson : List ShadowsocksAccessKey → List ShadowsocksAccessKey
  | [] => []
  | key :: rest =>
    if isAeadCipher key.cipher then key :: buildKeysJson rest
    else buildKeysJson rest

/-- Modelled from the spec: `jsyaml.safeDump(keysJson, {sortKeys: true})`
(the js-yaml library is not under src/).  The artifact is a textual mapping
with a single top-level `keys` field holding the sequence of records in list
order; field names inside each record are emitted alphabetically
(`cipher`, `id`, `secret`) because of `sortKeys: true`; the sequence itself
is not reordered. -/
def serializeKey (k : ShadowsocksAccessKey) : String :=
  "- cipher: " ++ k.cipher ++ "\n  id: " ++ k.id ++ "\n  secret: " ++ k.secret ++ "\n"

/-- Modelled from the spec: the whole serialized artifact text. -/
def safeDump (keysJson : List ShadowsocksAccessKey) : String :=
  "keys:\n" ++ String.join (keysJson.map serializeKey)

/-- The error surfaced by a rejected `writeConfigFile` promise: either
`mkdirp.sync` threw (an exception in the promise executor rejects the
promise) or `file.atomicWriteFileSync` threw inside the `try`. -/
inductive WriteError where
  | mkdirFailed
  | writeFailed
deriving Repr, DecidableEq

/-- The on-disk state of the configuration file path (`none`: no file yet). -/
structure Disk where
  configFile : Option String
deriving Repr, DecidableEq

/-- Modelled from the spec: `file.atomicWriteFileSync` (the
`infrastructure/file` module is not under src/).  Temp-file write plus atomic
rename: on success the path holds exactly the full new content; on failure it
throws and the previous content is untouched (never a partial file).  The
boolean injects the environment's I/O outcome.  Returns the resulting disk
and the thrown error, if any. -/
def atomicWriteFileSync (writeOk : Bool) (d : Disk) (content : String) :
    Disk × Option WriteError :=
  if writeOk then ({ configFile := some content }, none) else (d, some .writeFailed)

/-- Modelled from the spec: `mkdirp.sync` (the mkdirp library is not under
src/): recursively create the parent directory, throwing on failure.  The
boolean injects the environment's I/O outcome; the directory itself is not
otherwise observed. -/
def mkdirpSync (mkdirOk : Bool) : Except WriteError Unit :=
  if mkdirOk then .ok () else .error .mkdirFailed

/-- Function `writeConfigFile` from the source: filter the keys, ensure the directory
exists (a throw here escapes the promise executor and rejects the promise),
then atomically write the serialized artifact inside the `try`; the promise
resolves on success and rejects with the thrown error otherwise.  Returns
the resulting disk and the rejection, if any (`none` = resolved). -/
def writeConfigFile (mkdirOk writeOk : Bool) (d : Disk)
    (keys : List ShadowsocksAccessKey) : Disk × Option WriteError :=
  let keysJson := buildKeysJson keys
  match mkdirpSync mkdirOk with
  | .error e => (d, some e)
  | .ok () => atomicWriteFileSync writeOk d (safeDump keysJson)

/-- The constructor fields and builder-settable fields of
`OutlineShadowsocksServer`. -/
structure ServerConfig where
  binaryFilename : String
  configFilename : String
  verbose : Bool
  metricsLocation : String
  ipCountryFilename : Option String
  ipAsnFilename : Option String
  isAsnMetricsEnabled : Bool
  isReplayProtectionEnabled : Bool
deriving Repr, DecidableEq

/-- The constructor `new OutlineShadowsocksServer(binary, config, verbose,
metrics)` with the field initializers of the class. -/
def mkServer (binaryFilename configFilename : String) (verbose : Bool)
    (metricsLocation : String) : ServerConfig :=
  { binaryFilename := binaryFilename, configFilename := configFilename,
    verbose := verbose, metricsLocation := metricsLocation,
    ipCountryFilename := none, ipAsnFilename := none,
    isAsnMetricsEnabled := false, isReplayProtectionEnabled := false }

/-- Method `configureCountryMetrics` from the source. -/
def configureCountryMetrics (c : ServerConfig) (f : String) : ServerConfig :=
  { c with ipCountryFilename := some f }

/-- Method `configureAsnMetrics` from the source. -/
def configureAsnMetrics (c : ServerConfig) (f : String) : ServerConfig :=
  { c with ipAsnFilename := some f }

/-- Method `enableReplayProtection` from the source. -/
def enableReplayProtection (c : ServerConfig) : ServerConfig :=
  { c with isReplayProtectionEnabled := true }

/-- One builder call on the server object before/between updates. -/
inductive ConfigOp where
  | countryMetrics (f : String)
  | asnMetrics (f : String)
  | replayProtection
deriving Repr, DecidableEq

/-- Apply one builder call. -/
def applyOp (c : ServerConfig) : ConfigOp → ServerConfig
  | .countryMetrics f => configureCountryMetrics c f
  | .asnMetrics f => configureAsnMetrics c f
  | .replayProtection => enableReplayProtection c

/-- Apply a sequence of builder calls, left to right. -/
def applyOps (c : ServerConfig) (ops : List ConfigOp) : ServerConfig :=
  ops.foldl applyOp c

/-- The `commandArguments` list built in `start`, in source order:
`-config`, `-metrics`, then the conditional pushes. -/
def commandArguments (c : ServerConfig) : List String :=
  (["-config", c.configFilename, "-metrics", c.metricsLocation]
    ++ (match c.ipCountryFilename with
        | some f => ["-ip_country_db", f]
        | none => []))
    ++ (match c.ipAsnFilename with
        | some f => ["-ip_asn_db", f]
        | none => [])
    ++ (if c.verbose then ["-verbose"] else [])
    ++ (if c.isReplayProtectionEnabled then ["--replay_history=10000"] else [])

/-- A spawned subprocess handle: its pid and the argument list it was
launched with. -/
structure Process where
  pid : Nat
  args : List String
deriving Repr, DecidableEq

/-- The full observable state of one `OutlineShadowsocksServer` instance:
its configuration fields, the `ssProcess` handle, the disk, and event logs
of every spawn request and every signal sent (appended in program order).
`livePids` holds the pids of managed subprocesses that have been spawned and
have not yet exited; `nextPid` is a fresh-pid supply. -/
structure ServerState where
  cfg : ServerConfig
  ssProcess : Option Process
  disk : Disk
  nextPid : Nat
  livePids : List Nat
  spawns : List Process
  signals : List (Nat × String)
deriving Repr, DecidableEq

/-- The state of a freshly constructed server over an empty disk. -/
def initState (cfg : ServerConfig) : ServerState :=
  { cfg := cfg, ssProcess := none, disk := { configFile := none },
    nextPid := 0, livePids := [], spawns := [], signals := [] }

/-- Method `start` from the source: build `commandArguments` from the current
fields, spawn the binary, store the handle in `ssProcess` (the exit observer
is modelled by the `exit` case of `step`). -/
def start (s : ServerState) : ServerState :=
  let p : Process := { pid := s.nextPid, args := commandArguments s.cfg }
  { s with ssProcess := some p, nextPid := s.nextPid + 1,
           spawns := s.spawns ++ [p], livePids := s.livePids ++ [p.pid] }

/-- Method `update` from the source: run `writeConfigFile`; when it resolves, start
the subprocess if `ssProcess` is unset, otherwise send it `SIGHUP`; when it
rejects, the returned promise fails and nothing else happens.  Returns the
new state together with the promise outcome (`none` = resolved). -/
def update (mkdirOk writeOk : Bool) (s : ServerState)
    (keys : List ShadowsocksAccessKey) : ServerState × Option WriteError :=
  match writeConfigFile mkdirOk writeOk s.disk keys with
  | (d, some e) => ({ s with disk := d }, some e)
  | (d, none) =>
    match s.ssProcess with
    | none => (start { s with disk := d }, none)
    | some p =>
      ({ s with disk := d, signals := s.signals ++ [(p.pid, "SIGHUP")] }, none)

/-- A discrete event driving the component: an `update` call (with the
environment's I/O outcomes injected) or the exit of the managed subprocess
(with its code/signal, unobserved beyond logging). -/
inductive Event where
  | update (mkdirOk writeOk : Bool) (keys : List ShadowsocksAccessKey)
  | exit (code : Int) (signal : Option String)
deriving Repr

/-- One step of the component.  An `exit` event fires the `exit` observer
registered in `start` on the current handle: the exited process is no longer
live and `start` is re-invoked.  An exit can only concern the tracked
process while it is live (each handle's observer is registered once, at
spawn); otherwise the event is a no-op. -/
def step (s : ServerState) : Event → ServerState
  | .update mkdirOk writeOk keys => (update mkdirOk writeOk s keys).1
  | .exit _ _ =>
    match s.ssProcess with
    | none => s
    | some p =>
      if p.pid ∈ s.livePids then
        start { s with livePids := s.livePids.filter (fun q => q ≠ p.pid) }
      else s

/-- Run the component from a fresh instance through a sequence of events. -/
def run (cfg : ServerConfig) (events : List Event) : ServerState :=
  events.foldl step (initState cfg)

/-! ### Helper lemmas -/

/-- The push loop of `writeConfigFile` is `List.filter` on the cipher test. -/
theorem buildKeysJson_eq_filter (keys : List ShadowsocksAccessKey) :
    buildKeysJson keys = keys.filter (fun k => isAeadCipher k.cipher) := by
  induction keys with
  | nil => rfl
  | cons k rest ih =>
    simp only [buildKeysJson, List.filter_cons]
    split <;> simp_all

/-- Evaluating `writeConfigFile` with working I/O resolves and stores the full new
artifact. -/
theorem writeConfigFile_ok (d : Disk) (keys : List ShadowsocksAccessKey) :
    writeConfigFile true true d keys
      = ({ configFile := some (safeDump (buildKeysJson keys)) }, none) := by
  rfl

/-- Function `writeConfigFile` rejects exactly when directory creation or the atomic
write fails. -/
theorem writeConfigFile_err_iff (mkdirOk writeOk : Bool) (d : Disk)
    (keys : List ShadowsocksAccessKey) :
    (writeConfigFile mkdirOk writeOk d keys).2 ≠ none
      ↔ (mkdirOk = false ∨ writeOk = false) := by
  cases mkdirOk <;> cases writeOk <;>
    simp [writeConfigFile, mkdirpSync, atomicWriteFileSync]

/-- On any rejection, `writeConfigFile` leaves the disk untouched. -/
theorem writeConfigFile_err_disk (mkdirOk writeOk : Bool) (d : Disk)
    (keys : List ShadowsocksAccessKey)
    (h : (writeConfigFile mkdirOk writeOk d keys).2 ≠ none) :
    (writeConfigFile mkdirOk writeOk d keys).1 = d := by
  cases mkdirOk <;> cases writeOk <;>
    simp_all [writeConfigFile, mkdirpSync, atomicWriteFileSync]

/-- The disk after `writeConfigFile` is the full old or the full new
content. -/
theorem writeConfigFile_disk_cases (mkdirOk writeOk : Bool) (d : Disk)
    (keys : List ShadowsocksAccessKey) :
    (writeConfigFile mkdirOk writeOk d keys).1 = d ∨
      (writeConfigFile mkdirOk writeOk d keys).1
        = { configFile := some (safeDump (buildKeysJson keys)) } := by
  cases mkdirOk <;> cases writeOk <;>
    simp [writeConfigFile, mkdirpSync, atomicWriteFileSync]

/-- A resolved `update` implies both I/O steps succeeded. -/
theorem update_ok_io (mkdirOk writeOk : Bool) (s : ServerState)
    (keys : List ShadowsocksAccessKey)
    (h : (update mkdirOk writeOk s keys).2 = none) :
    mkdirOk = true ∧ writeOk = true := by
  cases mkdirOk <;> cases writeOk <;>
    simp_all [update, writeConfigFile, mkdirpSync, atomicWriteFileSync]

/-- A rejected `update` leaves the whole state unchanged. -/
theorem update_err_state (mkdirOk writeOk : Bool) (s : ServerState)
    (keys : List ShadowsocksAccessKey)
    (h : (update mkdirOk writeOk s keys).2 ≠ none) :
    (update mkdirOk writeOk s keys).1 = s := by
  cases mkdirOk <;> cases writeOk <;> cases hp : s.ssProcess <;>
    simp_all [update, writeConfigFile, mkdirpSync, atomicWriteFileSync] <;>
    rw [← hp]

/-- A resolved `update` with no existing handle starts the subprocess over
the freshly written disk. -/
theorem update_ok_state_none (mkdirOk writeOk : Bool) (s : ServerState)
    (keys : List ShadowsocksAccessKey) (hp : s.ssProcess = none)
    (h : (update mkdirOk writeOk s keys).2 = none) :
    (update mkdirOk writeOk s keys).1
      = start { s with disk := { configFile := some (safeDump (buildKeysJson keys)) } } := by
  obtain ⟨hm, hw⟩ := update_ok_io mkdirOk writeOk s keys h
  subst hm; subst hw
  simp [update, writeConfigFile_ok, hp]

/-- A resolved `update` with an existing handle only rewrites the disk and
sends `SIGHUP` to that handle. -/
theorem update_ok_state_some (mkdirOk writeOk : Bool) (s : ServerState)
    (keys : List ShadowsocksAccessKey) (p : Process) (hp : s.ssProcess = some p)
    (h : (update mkdirOk writeOk s keys).2 = none) :
    (update mkdirOk writeOk s keys).1
      = { s with disk := { configFile := some (safeDump (buildKeysJson keys)) },
                 signals := s.signals ++ [(p.pid, "SIGHUP")] } := by
  obtain ⟨hm, hw⟩ := update_ok_io mkdirOk writeOk s keys h
  subst hm; subst hw
  simp [update, writeConfigFile_ok, hp]

/-- A GCM test credential. -/
def keyA : ShadowsocksAccessKey :=
  { id := "a", secret := "sa", cipher := "aes-256-gcm" }

/-- A Poly1305 test credential. -/
def keyB : ShadowsocksAccessKey :=
  { id := "b", secret := "sb", cipher := "chacha20-ietf-poly1305" }

/-- A concrete server configuration for concrete instantiations. -/
def cfg0 : ServerConfig :=
  mkServer "outline-ss-server" "/opt/outline/config.yml" false "127.0.0.1:9090"

/-! ### Claim theorems -/

/-- C1: a credential appears in the written artifact's key list iff its
cipher name, lower-cased, ends with `"gcm"` or `"poly1305"` (case-insensitive
suffix whitelist); moreover the presence of rejected credentials never makes
the write fail, so the remaining credentials are still processed and
written. -/
theorem c1_cipher_whitelist (keys : List ShadowsocksAccessKey)
    (k : ShadowsocksAccessKey) :
    (k ∈ buildKeysJson keys ↔
      k ∈ keys ∧ (strEndsWith (strToLower k.cipher) "gcm" = true ∨
                  strEndsWith (strToLower k.cipher) "poly1305" = true)) ∧
    (∀ d : Disk, (writeConfigFile true true d keys).2 = none) := by
  constructor
  · rw [buildKeysJson_eq_filter, List.mem_filter]
    simp [isAeadCipher]
  · intro d
    rw [writeConfigFile_ok]

/-- C3: the `update` promise fails iff an I/O-level error occurred (directory
creation or the atomic write); credentials with rejected ciphers never cause
a failure by themselves. -/
theorem c3_fails_iff_io_error (mkdirOk writeOk : Bool) (s : ServerState)
    (keys : List ShadowsocksAccessKey) :
    (update mkdirOk writeOk s keys).2 ≠ none
      ↔ (mkdirOk = false ∨ writeOk = false) := by
  rw [← writeConfigFile_err_iff mkdirOk writeOk s.disk keys]
  unfold update
  rcases h : writeConfigFile mkdirOk writeOk s.disk keys with ⟨d, e⟩
  cases e <;> cases hp : s.ssProcess <;> simp

/-- C10: the cipher filter is order-preserving — the artifact's key list is
exactly `List.filter` of the input sequence (hence a sublist in the same
relative order); the credential list is not reordered before serialization. -/
theorem c10_filter_order_preserving (keys : List ShadowsocksAccessKey) :
    buildKeysJson keys = keys.filter (fun k => isAeadCipher k.cipher) ∧
    List.Sublist (buildKeysJson keys) keys := by
  refine ⟨buildKeysJson_eq_filter keys, ?_⟩
  rw [buildKeysJson_eq_filter]
  exact List.filter_sublist keys

/-- C2 is refuted: two `update` calls whose credential inputs are the same
set but in permuted order write different artifact bytes — the key list
preserves input order and is not sorted by key identifier. -/
theorem c2_counterexample :
    (update true true (initState cfg0) [keyA, keyB]).1.disk
      ≠ (update true true (initState cfg0) [keyB, keyA]).1.disk := by
  decide

/-- C2 (amended): the artifact bytes are a function of the credential input
sequence alone — two `update` calls given the identical credential sequence
(not merely the same set) write byte-identical artifacts, whatever the prior
state; the key list keeps the input order, and only the field names within
each record are serialized in sorted order. -/
theorem c2_amended_deterministic_bytes (s t : ServerState)
    (keys : List ShadowsocksAccessKey) :
    (update true true s keys).1.disk = (update true true t keys).1.disk := by
  cases hp : s.ssProcess <;> cases hq : t.ssProcess <;>
    simp [update, writeConfigFile_ok, hp, hq, start]

/-- C4: when persistence fails, `update` leaves the previously-existing
artifact unchanged and reports the failure to the caller; and in every case
the on-disk file is the full old content or the full new content, never a
partial file. -/
theorem c4_failure_preserves_disk (mkdirOk writeOk : Bool) (s : ServerState)
    (keys : List ShadowsocksAccessKey)
    (h : (update mkdirOk writeOk s keys).2 ≠ none) :
    (update mkdirOk writeOk s keys).1.disk = s.disk ∧
      ∀ (m w : Bool) (t : ServerState) (ks : List ShadowsocksAccessKey),
        (update m w t ks).1.disk = t.disk ∨
          (update m w t ks).1.disk
            = { configFile := some (safeDump (buildKeysJson ks)) } := by
  refine ⟨by rw [update_err_state mkdirOk writeOk s keys h], ?_⟩
  intro m w t ks
  cases m <;> cases w <;> cases ht : t.ssProcess <;>
    simp [update, writeConfigFile, mkdirpSync, atomicWriteFileSync, start, ht]

/-- Witness for C4 at a concrete failing input: directory creation fails,
the promise rejects, and the (empty) disk is unchanged. -/
theorem c4_witness :
    (update false true (initState cfg0) [keyA]).2 ≠ none ∧
    (update false true (initState cfg0) [keyA]).1.disk = (initState cfg0).disk :=
  ⟨by decide,
   (c4_failure_preserves_disk false true (initState cfg0) [keyA] (by decide)).1⟩

/-- C5: a first successful `update` (no subprocess handle yet) requests
exactly one subprocess start, whose argument list begins with
`-config <configFilename> -metrics <metricsLocation>` (so it includes both
pairs). -/
theorem c5_first_update_starts_once (mkdirOk writeOk : Bool) (s : ServerState)
    (keys : List ShadowsocksAccessKey) (hp : s.ssProcess = none)
    (h : (update mkdirOk writeOk s keys).2 = none) :
    ∃ (p : Process) (rest : List String),
      (update mkdirOk writeOk s keys).1.spawns = s.spawns ++ [p] ∧
      (update mkdirOk writeOk s keys).1.ssProcess = some p ∧
      p.args = ["-config", s.cfg.configFilename,
                "-metrics", s.cfg.metricsLocation] ++ rest := by
  rw [update_ok_state_none mkdirOk writeOk s keys hp h]
  refine ⟨{ pid := s.nextPid, args := commandArguments s.cfg },
          ((match s.cfg.ipCountryFilename with
            | some f => ["-ip_country_db", f]
            | none => [])
           ++ (match s.cfg.ipAsnFilename with
            | some f => ["-ip_asn_db", f]
            | none => [])
           ++ (if s.cfg.verbose then ["-verbose"] else [])
           ++ (if s.cfg.isReplayProtectionEnabled
               then ["--replay_history=10000"] else [])), ?_, ?_, ?_⟩
  · simp [start]
  · simp [start]
  · simp [commandArguments]

/-- Witness for C5: from a fresh instance, one successful `update` spawns
one process whose arguments start with the config and metrics pairs. -/
theorem c5_witness :
    (initState cfg0).ssProcess = none ∧
    (update true true (initState cfg0) [keyA]).2 = none ∧
    ∃ (p : Process) (rest : List String),
      (update true true (initState cfg0) [keyA]).1.spawns
        = (initState cfg0).spawns ++ [p] ∧
      (update true true (initState cfg0) [keyA]).1.ssProcess = some p ∧
      p.args = ["-config", (initState cfg0).cfg.configFilename,
                "-metrics", (initState cfg0).cfg.metricsLocation] ++ rest :=
  ⟨rfl, by decide,
   c5_first_update_starts_once true true (initState cfg0) [keyA] rfl (by decide)⟩

/-- C6: an `update` issued while a subprocess handle exists sends `SIGHUP`
to that handle and starts nothing new; and in every `update` the durable
write completes first — on write failure neither a start nor a signal is
issued, and on success the new artifact is already on disk in the state
that carries the start or the signal. -/
theorem c6_reload_not_restart (mkdirOk writeOk : Bool) (s : ServerState)
    (keys : List ShadowsocksAccessKey) (p : Process)
    (hp : s.ssProcess = some p) :
    ((update mkdirOk writeOk s keys).2 = none →
        (update mkdirOk writeOk s keys).1.spawns = s.spawns ∧
        (update mkdirOk writeOk s keys).1.ssProcess = some p ∧
        (update mkdirOk writeOk s keys).1.signals
          = s.signals ++ [(p.pid, "SIGHUP")] ∧
        (update mkdirOk writeOk s keys).1.disk
          = { configFile := some (safeDump (buildKeysJson keys)) }) ∧
    (∀ (m w : Bool) (t : ServerState) (ks : List ShadowsocksAccessKey),
        (update m w t ks).2 ≠ none →
          (update m w t ks).1.spawns = t.spawns ∧
          (update m w t ks).1.signals = t.signals) := by
  constructor
  · intro h
    rw [update_ok_state_some mkdirOk writeOk s keys p hp h]
    exact ⟨rfl, hp, rfl, rfl⟩
  · intro m w t ks h
    rw [update_err_state m w t ks h]
    exact ⟨rfl, rfl⟩

/-- A concrete state in which the subprocess is already running: the state
after a first successful `update`. -/
def running0 : ServerState := run cfg0 [Event.update true true [keyA]]

/-- Witness for C6: a second `update` on the running state resolves, sends
`SIGHUP` to the existing process and spawns nothing. -/
theorem c6_witness :
    (update true true running0 [keyB]).2 = none ∧
    (update true true running0 [keyB]).1.spawns = running0.spawns ∧
    (update true true running0 [keyB]).1.signals
      = running0.signals ++ [(0, "SIGHUP")] := by
  have hc := c6_reload_not_restart true true running0 [keyB]
      { pid := 0, args := commandArguments cfg0 } (by decide)
  have hu : (update true true running0 [keyB]).2 = none := by decide
  exact ⟨hu, (hc.1 hu).1, (hc.1 hu).2.2.1⟩

/-- C7: an exit event of the live managed subprocess — any exit code, any
signal — triggers exactly one restart, and the restarted process's argument
list is built by the same rule (`commandArguments` over the current
configuration) as the original start. -/
theorem c7_exit_restarts_once (s : ServerState) (code : Int)
    (sig : Option String) (p : Process) (hp : s.ssProcess = some p)
    (hl : p.pid ∈ s.livePids) :
    ∃ q : Process,
      (step s (Event.exit code sig)).spawns = s.spawns ++ [q] ∧
      q.args = commandArguments s.cfg ∧
      (step s (Event.exit code sig)).ssProcess = some q := by
  refine ⟨{ pid := s.nextPid, args := commandArguments s.cfg }, ?_, rfl, ?_⟩ <;>
    simp [step, hp, hl, start]

/-- Witness for C7: the running state's process (pid 0) exits with code 1;
exactly one new process is spawned with freshly built arguments. -/
theorem c7_witness :
    ∃ q : Process,
      (step running0 (Event.exit 1 none)).spawns = running0.spawns ++ [q] ∧
      q.args = commandArguments running0.cfg ∧
      (step running0 (Event.exit 1 none)).ssProcess = some q :=
  c7_exit_restarts_once running0 1 none
    { pid := 0, args := commandArguments cfg0 } (by decide) (by decide)

/-- Unfolding `applyOps` on a cons is one call then the rest. -/
theorem applyOps_cons (c : ServerConfig) (op : ConfigOp) (ops : List ConfigOp) :
    applyOps c (op :: ops) = applyOps (applyOp c op) ops := rfl

/-- The replay flag after a builder-call sequence: set iff it was set before
or `enableReplayProtection` occurs in the sequence. -/
theorem applyOps_replay_flag (ops : List ConfigOp) (c : ServerConfig) :
    (applyOps c ops).isReplayProtectionEnabled
      = (c.isReplayProtectionEnabled
          || decide (ConfigOp.replayProtection ∈ ops)) := by
  induction ops generalizing c with
  | nil => simp [applyOps]
  | cons op rest ih =>
    rw [applyOps_cons, ih]
    cases op <;>
      simp [applyOp, configureCountryMetrics, configureAsnMetrics,
            enableReplayProtection]

/-- With the replay flag set, the argument list contains the replay-history
argument. -/
theorem replay_arg_mem (c : ServerConfig)
    (h : c.isReplayProtectionEnabled = true) :
    "--replay_history=10000" ∈ commandArguments c := by
  simp [commandArguments, h]

/-- With the replay flag cleared, the argument list is exactly the flagged
argument list with the replay-history argument removed from the end. -/
theorem commandArguments_replay_split (c : ServerConfig)
    (h : c.isReplayProtectionEnabled = false) :
    commandArguments c ++ ["--replay_history=10000"]
      = commandArguments { c with isReplayProtectionEnabled := true } := by
  simp [commandArguments, h]

/-- C8: starting from the constructor, if `enableReplayProtection()` occurs
among the builder calls made before the first `update`, the start argument
list includes `--replay_history=10000`; if it never occurs, the argument
list carries no replay-history argument (appending it yields exactly the
enabled-flag argument list). -/
theorem c8_replay_protection_arg (b cf : String) (v : Bool) (m : String)
    (ops : List ConfigOp) :
    (ConfigOp.replayProtection ∈ ops →
      "--replay_history=10000"
        ∈ commandArguments (applyOps (mkServer b cf v m) ops)) ∧
    (ConfigOp.replayProtection ∉ ops →
      commandArguments (applyOps (mkServer b cf v m) ops)
          ++ ["--replay_history=10000"]
        = commandArguments
            { applyOps (mkServer b cf v m) ops with
                isReplayProtectionEnabled := true }) := by
  constructor
  · intro h
    apply replay_arg_mem
    rw [applyOps_replay_flag]
    simp [mkServer, h]
  · intro h
    apply commandArguments_replay_split
    rw [applyOps_replay_flag]
    simp [mkServer, h]

/-- Witness for C8: calling `enableReplayProtection` puts the replay
argument in the start arguments of a concrete server. -/
theorem c8_witness :
    ConfigOp.replayProtection ∈ [ConfigOp.replayProtection] ∧
    "--replay_history=10000"
      ∈ commandArguments
          (applyOps (mkServer "outline-ss-server" "/opt/outline/config.yml"
              false "127.0.0.1:9090") [ConfigOp.replayProtection]) :=
  ⟨by decide,
   (c8_replay_protection_arg "outline-ss-server" "/opt/outline/config.yml"
       false "127.0.0.1:9090" [ConfigOp.replayProtection]).1 (by decide)⟩

/-- The handle/liveness invariant: either no managed subprocess is live, or
exactly the tracked one is. -/
def liveInv (s : ServerState) : Prop :=
  s.livePids = [] ∨ ∃ p, s.ssProcess = some p ∧ s.livePids = [p.pid]

/-- A fresh instance satisfies the liveness invariant. -/
theorem liveInv_init (cfg : ServerConfig) : liveInv (initState cfg) := by
  left; rfl

/-- Calling `start` on a state with no live subprocess yields exactly one live
subprocess, the tracked one. -/
theorem liveInv_start (s : ServerState) (h : s.livePids = []) :
    liveInv (start s) := by
  right
  refine ⟨{ pid := s.nextPid, args := commandArguments s.cfg }, ?_, ?_⟩ <;>
    simp [start, h]

/-- Every step of the component preserves the liveness invariant. -/
theorem liveInv_step (s : ServerState) (e : Event) (h : liveInv s) :
    liveInv (step s e) := by
  cases e with
  | update m w keys =>
    by_cases hu : (update m w s keys).2 = none
    · cases hp : s.ssProcess with
      | none =>
        have hemp : s.livePids = [] := by
          rcases h with h0 | ⟨q, hq, _⟩
          · exact h0
          · rw [hp] at hq; cases hq
        rw [show step s (Event.update m w keys) = (update m w s keys).1
              from rfl,
            update_ok_state_none m w s keys hp hu]
        exact liveInv_start _ (by simpa using hemp)
      | some p =>
        rw [show step s (Event.update m w keys) = (update m w s keys).1
              from rfl,
            update_ok_state_some m w s keys p hp hu]
        rcases h with h0 | ⟨q, hq, hq2⟩
        · left; simpa using h0
        · right; exact ⟨q, by simpa using hq, by simpa using hq2⟩
    · rw [show step s (Event.update m w keys) = (update m w s keys).1
            from rfl,
          update_err_state m w s keys hu]
      exact h
  | exit code sig =>
    cases hp : s.ssProcess with
    | none => simpa [step, hp] using h
    | some p =>
      by_cases hm : p.pid ∈ s.livePids
      · have hlive : s.livePids = [p.pid] := by
          rcases h with h0 | ⟨q, hq, hq2⟩
          · rw [h0] at hm; simp at hm
          · rw [hp] at hq
            injection hq with hq
            rw [hq]; exact hq2
        rw [show step s (Event.exit code sig)
              = start { s with
                  livePids := s.livePids.filter (fun q => q ≠ p.pid) }
              from by simp [step, hp, hm]]
        exact liveInv_start _ (by simp [hlive])
      · simpa [step, hp, hm] using h


/-- The liveness invariant is preserved along any event fold. -/
theorem liveInv_foldl (l : List Event) (s : ServerState) (h : liveInv s) :
    liveInv (l.foldl step s) := by
  induction l generalizing s with
  | nil => exact h
  | cons e rest ih => exact ih (step s e) (liveInv_step s e h)

/-- C9: in every reachable state of the component — under any sequence of
`update` calls (with any I/O outcomes) and subprocess exit events — at most
one live subprocess instance exists under the component's management. -/
theorem c9_at_most_one_live (cfg : ServerConfig) (events : List Event) :
    (run cfg events).livePids.length ≤ 1 := by
  have h : liveInv (run cfg events) :=
    liveInv_foldl events (initState cfg) (liveInv_init cfg)
  rcases h with h0 | ⟨p, _, h1⟩
  · simp [h0]
  · simp [h1]

end OutlineSS
